import Mathlib

/-!
Verification of the record data model, record store and document renderer of
the daycare attendance application (`app.py`).

The store is the single SQLite table `forms` (app.py lines 32-47), accessed by
`save_form_to_db`, `get_form_from_db`, `get_all_forms` and
`delete_form_from_db` (lines 54-132).  The two structured columns
`attendance` and `payments` hold JSON text: `json.dumps(list)` on write and
`json.loads(cell) if cell else []` on read.  `json.dumps` of a Python list is
always a nonempty string and `json.loads` inverts it, so the embedding keeps
the decoded list in the cell, with `none` standing for an empty or NULL cell.

The database itself is modelled as the list of rows in rowid order: a plain
`INSERT OR REPLACE` deletes the conflicting row and appends a fresh row with a
new rowid, which the model mirrors by filtering and appending.
-/

namespace Garderie

/-- One week of the attendance grid, as serialized in the `attendance` JSON
column: an object with keys `startDate` and `days` (a list of day codes,
index 0..6 = Monday..Sunday in the build flow). -/
structure Week where
  startDate : String
  days : List String
deriving DecidableEq

/-- One payment entry of the `payments` JSON column: keys `date`, `amount`,
`balance`.  Amounts are numbers in the build flow, modelled as rationals;
`none` stands for a missing key or the empty-string placeholder `''` used by
the renderer's out-of-range default (both are falsy in Python, exactly like
the number 0, which is kept as `some 0`). -/
structure Payment where
  date : String
  amount : Option ℚ
  balance : Option ℚ
deriving DecidableEq

/-- A row of the `forms` table (app.py lines 32-47), with the two JSON
columns kept in decoded form (`none` = empty/NULL cell, `some l` = the
nonempty text `json.dumps l`). -/
structure Row where
  id : String
  bureau : String
  enfant : String
  parent : String
  rsge : String
  date_fin : String
  attendance : Option (List Week)
  payments : Option (List Payment)
  parent_signature : String
  rsge_signature : String
  created_date : String
  status : String
  parent_signed : Int
  parent_signed_date : String
deriving DecidableEq

/-- The `forms` table: rows in rowid (insertion) order. -/
abbrev DB := List Row

/-- The `form_data` dict handed to `save_form_to_db`; `none` models a
missing key, read through `form_data.get(key, default)`. -/
structure FormData where
  bureau : Option String
  enfant : Option String
  parent : Option String
  rsge : Option String
  date_fin : Option String
  attendance : Option (List Week)
  payments : Option (List Payment)
  parent_signature : Option String
  rsge_signature : Option String
  created_date : Option String
  status : Option String
  parent_signed : Option Int
  parent_signed_date : Option String
deriving DecidableEq

/-- The empty dict `{}`: every key missing. -/
def emptyFormData : FormData :=
  ⟨none, none, none, none, none, none, none, none, none, none, none, none, none⟩

/-- The row written by `save_form_to_db` (app.py lines 58-67): each scalar
defaults to `''`, `status` to `'draft'`, `parent_signed` to `0`, and the two
structured columns are stored as `json.dumps(form_data.get(k, []))` — hence
always a nonempty JSON text, `"[]"` at minimum (`some []` in the model). -/
def savedRow (form_id : String) (fd : FormData) : Row :=
  { id := form_id,
    bureau := fd.bureau.getD "",
    enfant := fd.enfant.getD "",
    parent := fd.parent.getD "",
    rsge := fd.rsge.getD "",
    date_fin := fd.date_fin.getD "",
    attendance := some (fd.attendance.getD []),
    payments := some (fd.payments.getD []),
    parent_signature := fd.parent_signature.getD "",
    rsge_signature := fd.rsge_signature.getD "",
    created_date := fd.created_date.getD "",
    status := fd.status.getD "draft",
    parent_signed := fd.parent_signed.getD 0,
    parent_signed_date := fd.parent_signed_date.getD "" }

/-- `save_form_to_db` (app.py lines 54-70): `INSERT OR REPLACE INTO forms` —
the row with the same primary key, if any, is replaced; the replacement gets
a fresh rowid, so it moves to the end of the scan order. -/
def save_form_to_db (db : DB) (form_id : String) (fd : FormData) : DB :=
  db.filter (fun r => r.id != form_id) ++ [savedRow form_id fd]

/-- The dict returned by `get_form_from_db`/`get_all_forms` (app.py lines
80-96): the row with `attendance`/`payments` decoded by
`json.loads(cell) if cell else []`. -/
structure Record where
  id : String
  bureau : String
  enfant : String
  parent : String
  rsge : String
  date_fin : String
  attendance : List Week
  payments : List Payment
  parent_signature : String
  rsge_signature : String
  created_date : String
  status : String
  parent_signed : Int
  parent_signed_date : String
deriving DecidableEq

/-- Decoding of one row (app.py lines 80-96): `json.loads` of a stored
`json.dumps` returns the original list; an empty/NULL cell decodes to `[]`. -/
def rowToRecord (row : Row) : Record :=
  { id := row.id,
    bureau := row.bureau,
    enfant := row.enfant,
    parent := row.parent,
    rsge := row.rsge,
    date_fin := row.date_fin,
    attendance := row.attendance.getD [],
    payments := row.payments.getD [],
    parent_signature := row.parent_signature,
    rsge_signature := row.rsge_signature,
    created_date := row.created_date,
    status := row.status,
    parent_signed := row.parent_signed,
    parent_signed_date := row.parent_signed_date }

/-- `get_form_from_db` (app.py lines 72-97): `SELECT * FROM forms WHERE id = ?`
with `fetchone`, decoded; `None` when no row matches. -/
def get_form_from_db (db : DB) (form_id : String) : Option Record :=
  (db.find? (fun r => r.id == form_id)).map rowToRecord

/-- `delete_form_from_db` (app.py lines 127-132): `DELETE FROM forms WHERE
id = ?` — unconditional removal, no error for an absent id. -/
def delete_form_from_db (db : DB) (form_id : String) : DB :=
  db.filter (fun r => r.id != form_id)

/-- The fully-populated `form_data` dict built from a record (as the
sign-and-submit handler does at app.py lines 561-593: every key present). -/
def recordToFormData (r : Record) : FormData :=
  { bureau := some r.bureau,
    enfant := some r.enfant,
    parent := some r.parent,
    rsge := some r.rsge,
    date_fin := some r.date_fin,
    attendance := some r.attendance,
    payments := some r.payments,
    parent_signature := some r.parent_signature,
    rsge_signature := some r.rsge_signature,
    created_date := some r.created_date,
    status := some r.status,
    parent_signed := some r.parent_signed,
    parent_signed_date := some r.parent_signed_date }

lemma find?_save (db : DB) (fid : String) (fd : FormData) :
    (save_form_to_db db fid fd).find? (fun r => r.id == fid)
      = some (savedRow fid fd) := by
  unfold save_form_to_db
  induction db with
  | nil => simp [List.find?, savedRow]
  | cons x xs ih =>
    by_cases hx : x.id = fid
    · simpa [List.filter_cons, hx] using ih
    · simp only [List.filter_cons, bne_iff_ne, ne_eq, hx, not_false_eq_true,
        if_true, if_pos, List.cons_append]
      rw [List.find?_cons_of_neg _ (by simp [hx])]
      exact ih

lemma get_after_save_eq (db : DB) (fid : String) (fd : FormData) :
    get_form_from_db (save_form_to_db db fid fd) fid
      = some (rowToRecord (savedRow fid fd)) := by
  unfold get_form_from_db
  rw [find?_save]
  rfl

lemma get_save_record (db : DB) (r : Record) :
    get_form_from_db (save_form_to_db db r.id (recordToFormData r)) r.id
      = some r := by
  rw [get_after_save_eq]
  cases r
  rfl

/-- C1: storing a record with `save_form_to_db` (every key of the dict
populated from the record, as the submit flow does) and reading it back with
`get_form_from_db` under the same id returns an equal record; in particular
the structured `attendance`/`payments` fields come back unchanged, hence
byte-for-byte identical once re-encoded, `json.dumps` being a function of
the decoded value. -/
theorem get_put_roundtrip (db : DB) (r : Record) :
    get_form_from_db (save_form_to_db db r.id (recordToFormData r)) r.id
      = some r :=
  get_save_record db r

lemma find?_filter_ne (db : DB) (fid : String) :
    (db.filter (fun r => r.id != fid)).find? (fun r => r.id == fid) = none := by
  induction db with
  | nil => rfl
  | cons x xs ih =>
    by_cases hx : x.id = fid
    · rw [List.filter_cons, if_neg (by simp [hx])]
      exact ih
    · simp only [List.filter_cons, bne_iff_ne, ne_eq, hx, not_false_eq_true,
        if_true, if_pos]
      rw [List.find?_cons_of_neg _ (by simp [hx])]
      exact ih

/-- C9: deleting any id, present or not, succeeds (the operation is total);
after `delete_form_from_db`, `get_form_from_db` of that id yields `none`;
and deleting an id that is absent from the table leaves the table
unchanged — a no-op, not an error. -/
theorem delete_get_absent (db : DB) (fid : String) :
    get_form_from_db (delete_form_from_db db fid) fid = none ∧
    ((∀ r ∈ db, r.id ≠ fid) → delete_form_from_db db fid = db) := by
  constructor
  · unfold get_form_from_db delete_form_from_db
    rw [find?_filter_ne]
    rfl
  · intro h
    unfold delete_form_from_db
    exact List.filter_eq_self.mpr (fun r hr => by simp [h r hr])

/-- C9 witness: deleting the id `"x"` from a one-row table that holds only
the id `"a"` returns `none` on a subsequent lookup and leaves the row in
place. -/
theorem delete_get_absent_witness :
    get_form_from_db
        (delete_form_from_db [savedRow "a" emptyFormData] "x") "x" = none ∧
      delete_form_from_db [savedRow "a" emptyFormData] "x"
        = [savedRow "a" emptyFormData] := by
  have h := delete_get_absent [savedRow "a" emptyFormData] "x"
  exact ⟨h.1, h.2 (by decide)⟩

/-- C10: saving the empty dict succeeds and persists the documented
defaults — empty strings for the identity fields, dates and signatures,
the encoded empty sequence (`json.dumps([]) = "[]"`, i.e. `some []`) for
`attendance` and `payments`, status `"draft"` and `parent_signed = 0` — and
a subsequent `get_form_from_db` returns exactly this default record. -/
theorem save_defaults (db : DB) (fid : String) :
    get_form_from_db (save_form_to_db db fid emptyFormData) fid
      = some { id := fid, bureau := "", enfant := "", parent := "",
               rsge := "", date_fin := "", attendance := [], payments := [],
               parent_signature := "", rsge_signature := "",
               created_date := "", status := "draft", parent_signed := 0,
               parent_signed_date := "" } ∧
    (savedRow fid emptyFormData).attendance = some [] ∧
    (savedRow fid emptyFormData).payments = some [] := by
  refine ⟨?_, rfl, rfl⟩
  rw [get_after_save_eq]
  rfl

/-- The selectbox option list of day codes (app.py line 481): the full
enumerated `AttendanceCode` set, `options[0]` being the empty code. -/
def options : List String :=
  ["", "P", "P½", "A", "A½", "R", "R½", "F", "F½", "AN", "AD", "L", "S", "S½"]

/-- The stored value looked up for day `i` of a loaded week (app.py line
485): `week_data.get('days', [''] * 7)[i] if i < len(week_data.get('days',
[])) else ''` — a bounds-checked read defaulting to the empty string. -/
def currentDayValue (w : Week) (i : Nat) : String :=
  if i < w.days.length then w.days.getD i "" else ""

/-- The selectbox default index (app.py line 488):
`options.index(current_value) if current_value in options else 0`. -/
def default_index (cur : String) : Nat :=
  if cur ∈ options then options.indexOf cur else 0

/-- The day code the display layer actually shows for day `i` of week `w`:
the option at `default_index` (app.py lines 485-493). -/
def selectedDayCode (w : Week) (i : Nat) : String :=
  options.getD (default_index (currentDayValue w i)) ""

lemma getD_indexOf_options (s : String) (hs : s ∈ options) :
    options.getD (options.indexOf s) "" = s := by
  fin_cases hs <;> rfl

lemma selectedDayCode_eq (w : Week) (i : Nat) :
    selectedDayCode w i
      = if currentDayValue w i ∈ options then currentDayValue w i else "" := by
  unfold selectedDayCode default_index
  by_cases h : currentDayValue w i ∈ options
  · rw [if_pos h, if_pos h, getD_indexOf_options _ h]
  · rw [if_neg h, if_neg h]
    rfl

/-- C8: the attendance-code lookup used when loading a stored week for
display is total (modelled as a total function: the index is
bounds-checked before the list access, so no exception can occur), its
result is always one of the enumerated codes, it returns the empty code
for any day index out of range of the stored `days` sequence, and it
returns the empty code for any stored value outside the enumerated set. -/
theorem day_lookup_total_default (w : Week) (i : Nat) :
    selectedDayCode w i ∈ options ∧
    (w.days.length ≤ i → selectedDayCode w i = "") ∧
    (currentDayValue w i ∉ options → selectedDayCode w i = "") := by
  refine ⟨?_, ?_, ?_⟩
  · rw [selectedDayCode_eq]
    by_cases h : currentDayValue w i ∈ options
    · rwa [if_pos h]
    · rw [if_neg h]; decide
  · intro hlen
    have hc : currentDayValue w i = "" := by
      unfold currentDayValue
      rw [if_neg (by omega)]
    rw [selectedDayCode_eq, hc, if_pos (by decide)]
  · intro h
    rw [selectedDayCode_eq, if_neg h]

/-- C8 witness: for the week storing the single invalid code `"ZZ"`, the
lookup yields the empty code both at day 0 (invalid stored value) and at
day 6 (index out of range). -/
theorem day_lookup_total_default_witness :
    selectedDayCode ⟨"", ["ZZ"]⟩ 0 = "" ∧ selectedDayCode ⟨"", ["ZZ"]⟩ 6 = "" :=
  ⟨(day_lookup_total_default ⟨"", ["ZZ"]⟩ 0).2.2 (by decide),
   (day_lookup_total_default ⟨"", ["ZZ"]⟩ 6).2.1 (by decide)⟩

/-- A `form_data` dict whose attendance holds a day code outside the
enumerated set. -/
def badCodeForm : FormData :=
  { emptyFormData with attendance := some [(⟨"", ["XYZ", "P"]⟩ : Week)] }

/-- C7 counterexample: `save_form_to_db` performs no validation — the
invalid day code `"XYZ"` is persisted verbatim and read back unchanged,
neither rejected nor flagged by the storage layer, refuting the claim that
a put whose attendance contains a value outside the enumerated set is
rejected or flagged. -/
theorem invalid_code_persisted_cx :
    (get_form_from_db (save_form_to_db [] "f3" badCodeForm) "f3").map
        Record.attendance
      = some [(⟨"", ["XYZ", "P"]⟩ : Week)] ∧
    "XYZ" ∉ options := by
  exact ⟨rfl, by decide⟩

/-- C7 (amended): the storage layer persists the attendance cells verbatim,
without rejecting or flagging values outside the enumerated code set; the
substitution of the empty code for such values happens only in the display
layer's selectbox lookup. -/
theorem storage_verbatim_display_fallback (db : DB) (fid : String)
    (fd : FormData) (w : Week) (i : Nat) :
    (get_form_from_db (save_form_to_db db fid fd) fid).map Record.attendance
      = some (fd.attendance.getD []) ∧
    selectedDayCode w i ∈ options ∧
    (currentDayValue w i ∉ options → selectedDayCode w i = "") := by
  refine ⟨?_, ?_, ?_⟩
  · rw [get_after_save_eq]
    rfl
  · rw [selectedDayCode_eq]
    by_cases h : currentDayValue w i ∈ options
    · rwa [if_pos h]
    · rw [if_neg h]; decide
  · intro h
    rw [selectedDayCode_eq, if_neg h]

/-- C7 witness: at the week storing `"QQ"`, a value outside the enumerated
set, the display lookup substitutes the empty code. -/
theorem storage_verbatim_display_fallback_witness :
    selectedDayCode ⟨"", ["QQ"]⟩ 0 = "" :=
  (storage_verbatim_display_fallback [] "w" emptyFormData
    ⟨"", ["QQ"]⟩ 0).2.2 (by decide)

/-- The per-session widget state read back by the submit handler (app.py
lines 457-527): `st.session_state.attendance_grid_state` and
`st.session_state.payment_state`, read with `.get(key, default)`; the
defaults are folded into total functions (start dates and day codes as
strings, amounts and balances as numbers from `st.number_input`). -/
structure SessionState where
  start_date : Nat → String
  day : Nat → Nat → String
  payment_date : Nat → String
  payment_amount : Nat → ℚ
  payment_balance : Nat → ℚ

/-- The attendance list assembled by the submit handler (app.py lines
579-584): always exactly 4 weeks, each with exactly 7 day entries. -/
def buildAttendance (ss : SessionState) : List Week :=
  (List.range 4).map (fun w => ⟨ss.start_date w, (List.range 7).map (ss.day w)⟩)

/-- The payment list assembled by the submit handler (app.py lines
586-593): always exactly 4 entries, amounts and balances present as
numbers. -/
def buildPayments (ss : SessionState) : List Payment :=
  (List.range 4).map
    (fun i => ⟨ss.payment_date i, some (ss.payment_amount i),
               some (ss.payment_balance i)⟩)

/-- The error signalled when the submit button is pressed with no captured
signature image (app.py line 601, `st.error(...)`; nothing is saved). -/
inductive ValidationError where
  | missingSignature
deriving DecidableEq

/-- The sign-and-submit handler (app.py lines 549-601).  `prior` is the
record loaded for the current query id, if any; `img` the base64-encoded
canvas image; `now` the `datetime.now().isoformat()` timestamp and `ts` the
integer timestamp used for a fresh id.  With no signature image the handler
errors out and writes nothing; otherwise it assembles the full dict —
`status = 'signed'`, `parent_signed = 1`, `parent_signed_date = now` — and
saves it under the (existing or fresh) id. -/
def signAndSubmit (db : DB) (prior : Option Record)
    (bureau enfant parent rsge date_fin : String) (ss : SessionState)
    (sig : Option String) (now : String) (ts : Nat) :
    Except ValidationError (Record × DB) :=
  match sig with
  | none => .error .missingSignature
  | some img =>
    let form_id := (prior.map Record.id).getD ("form_" ++ toString ts)
    let r : Record :=
      { id := form_id, bureau := bureau, enfant := enfant, parent := parent,
        rsge := rsge, date_fin := date_fin,
        attendance := buildAttendance ss, payments := buildPayments ss,
        parent_signature := "data:image/png;base64," ++ img,
        rsge_signature := (prior.map Record.rsge_signature).getD "",
        created_date := (prior.map Record.created_date).getD now,
        status := "signed", parent_signed := 1, parent_signed_date := now }
    .ok (r, save_form_to_db db form_id (recordToFormData r))

/-- The table contents after the submit attempt: unchanged when the handler
errors, the saved state otherwise. -/
def signAndSubmitDB (db : DB) (prior : Option Record)
    (bureau enfant parent rsge date_fin : String) (ss : SessionState)
    (sig : Option String) (now : String) (ts : Nat) : DB :=
  match signAndSubmit db prior bureau enfant parent rsge date_fin ss sig now ts with
  | .error _ => db
  | .ok (_, db2) => db2

/-- C5: submitting with the signature image absent yields the validation
error and leaves the store unchanged; with a signature image present the
built record has `parent_signed = 1`, `status = "signed"` and a non-empty
`parent_signed_date` (the `isoformat()` timestamp is never empty, carried
here as the hypothesis on `now`), and the record is persisted: reading its
id back returns it. -/
theorem sign_submit_spec (db : DB) (prior : Option Record)
    (bureau enfant parent rsge date_fin : String) (ss : SessionState)
    (now : String) (ts : Nat) (hnow : now ≠ "") :
    (signAndSubmit db prior bureau enfant parent rsge date_fin ss none now ts
        = .error .missingSignature ∧
     signAndSubmitDB db prior bureau enfant parent rsge date_fin ss none now ts
        = db) ∧
    ∀ img : String, ∃ r : Record, ∃ db2 : DB,
      signAndSubmit db prior bureau enfant parent rsge date_fin ss (some img)
          now ts = .ok (r, db2) ∧
      r.parent_signed = 1 ∧ r.status = "signed" ∧
      r.parent_signed_date = now ∧ r.parent_signed_date ≠ "" ∧
      get_form_from_db db2 r.id = some r := by
  refine ⟨⟨rfl, rfl⟩, ?_⟩
  intro img
  refine ⟨_, _, rfl, rfl, rfl, rfl, hnow, ?_⟩
  exact get_save_record db _

/-- A session state with every widget left at its default. -/
def blankSession : SessionState :=
  ⟨fun _ => "", fun _ _ => "", fun _ => "", fun _ => 0, fun _ => 0⟩

/-- C5 witness: the handler applied at a concrete empty store, no prior
record, blank inputs and the concrete timestamp `2024-01-01T00:00:00`. -/
theorem sign_submit_spec_witness :
    ("2024-01-01T00:00:00" : String) ≠ "" ∧
    ((signAndSubmit [] none "" "" "" "" "" blankSession none
          "2024-01-01T00:00:00" 0 = .error .missingSignature ∧
      signAndSubmitDB [] none "" "" "" "" "" blankSession none
          "2024-01-01T00:00:00" 0 = []) ∧
     ∀ img : String, ∃ r : Record, ∃ db2 : DB,
       signAndSubmit [] none "" "" "" "" "" blankSession (some img)
           "2024-01-01T00:00:00" 0 = .ok (r, db2) ∧
       r.parent_signed = 1 ∧ r.status = "signed" ∧
       r.parent_signed_date = "2024-01-01T00:00:00" ∧
       r.parent_signed_date ≠ "" ∧
       get_form_from_db db2 r.id = some r) :=
  ⟨by decide,
   sign_submit_spec [] none "" "" "" "" "" blankSession
     "2024-01-01T00:00:00" 0 (by decide)⟩

/-- A `form_data` dict holding one short week and no payments. -/
def shortForm : FormData :=
  { emptyFormData with
      attendance := some [(⟨"2024-01-01", ["P", "A", "R"]⟩ : Week)] }

/-- C2 counterexample: a record saved through the storage layer with one
week of three day codes and no payments decodes, on read-back, to exactly
one week entry whose day sequence has three elements, and zero payment
entries — not 4 zero-padded weeks of 7 days and 4 payments as claimed. -/
theorem decode_not_padded_cx :
    (get_form_from_db (save_form_to_db [] "f2" shortForm) "f2").map
        (fun r => (r.attendance.length, r.payments.length,
                   r.attendance.map (fun w => w.days.length)))
      = some (1, 0, [3]) ∧
    ¬ ((1 : Nat) = 4 ∧ (0 : Nat) = 4) := by
  exact ⟨rfl, by decide⟩

/-- C2 (amended): decoding the persisted `attendance`/`payments` cells
yields exactly the stored sequences — an empty or absent cell decodes to
the empty sequence, with no zero-padding or truncation at the storage
layer.  The fixed 4-week/7-day/4-payment shape comes from the build flow:
a record assembled by the sign-and-submit handler always stores exactly 4
week entries of exactly 7 day codes and exactly 4 payment entries, and
reads back with that shape; the 4/7 normalization of arbitrary stored data
happens in the display and render layers instead. -/
theorem decode_verbatim_build_shape (db : DB) (fid : String) (fd : FormData)
    (db2 : DB) (prior : Option Record)
    (bureau enfant parent rsge date_fin : String) (ss : SessionState)
    (img now : String) (ts : Nat) :
    ((get_form_from_db (save_form_to_db db fid fd) fid).map Record.attendance
        = some (fd.attendance.getD []) ∧
     (get_form_from_db (save_form_to_db db fid fd) fid).map Record.payments
        = some (fd.payments.getD [])) ∧
    ∃ r : Record, ∃ db3 : DB,
      signAndSubmit db2 prior bureau enfant parent rsge date_fin ss (some img)
          now ts = .ok (r, db3) ∧
      get_form_from_db db3 r.id = some r ∧
      r.attendance.length = 4 ∧ r.payments.length = 4 ∧
      r.attendance.all (fun w => w.days.length == 7) = true := by
  refine ⟨⟨?_, ?_⟩, ?_⟩
  · rw [get_after_save_eq]; rfl
  · rw [get_after_save_eq]; rfl
  · refine ⟨_, _, rfl, get_save_record db2 _, ?_, ?_, ?_⟩
    · simp [buildAttendance]
    · simp [buildPayments]
    · simp [buildAttendance, List.all_eq_true]

/-- The header row of the PDF attendance grid (app.py line 236): the
week-start label and the seven French day-of-week abbreviations
Monday..Sunday. -/
def attendance_headers : List String :=
  ["Semaine débutant le", "L", "M", "M", "J", "V", "S", "D"]

/-- One data row of the PDF attendance grid (app.py lines 241-249): for a
present week, `[start_date] + days[:7]` — the stored day list truncated to
at most 7, not padded; for a missing week index, one empty start-date cell
plus 7 empty day cells.  (A week entry decoded from the JSON store is a
nonempty object, hence truthy in the `and attendance_data[week_idx]`
guard.) -/
def attendanceRow (att : List Week) (week_idx : Nat) : List String :=
  match att[week_idx]? with
  | some w => w.startDate :: w.days.take 7
  | none => "" :: List.replicate 7 ""

/-- The full attendance table handed to the PDF builder (app.py lines
236-249): the header row followed by the rows for week indices 0..3. -/
def attendance_table_data (att : List Week) : List (List String) :=
  attendance_headers :: (List.range 4).map (attendanceRow att)

/-- One decimal digit character. -/
def digitChar (n : Nat) : Char :=
  if n = 0 then '0' else if n = 1 then '1' else if n = 2 then '2'
  else if n = 3 then '3' else if n = 4 then '4' else if n = 5 then '5'
  else if n = 6 then '6' else if n = 7 then '7' else if n = 8 then '8'
  else '9'

lemma digitChar_isDigit (n : Nat) : (digitChar n).isDigit := by
  unfold digitChar
  split_ifs <;> decide

/-- Decimal digits of a natural number, most significant first, with
explicit fuel (`n + 1` is always enough). -/
def natCharsAux : Nat → Nat → List Char
  | 0, _ => []
  | fuel + 1, n =>
    if n < 10 then [digitChar n]
    else natCharsAux fuel (n / 10) ++ [digitChar (n % 10)]

/-- Decimal representation of a natural number, as Python's `%d`. -/
def natChars (n : Nat) : List Char := natCharsAux (n + 1) n

lemma natCharsAux_digits (fuel : Nat) :
    ∀ n c, c ∈ natCharsAux fuel n → c.isDigit := by
  induction fuel with
  | zero => intro n c hc; simp [natCharsAux] at hc
  | succ f ih =>
    intro n c hc
    rw [natCharsAux] at hc
    by_cases h : n < 10
    · rw [if_pos h] at hc
      simp at hc
      subst hc
      exact digitChar_isDigit n
    · rw [if_neg h] at hc
      rcases List.mem_append.mp hc with h1 | h2
      · exact ih _ _ h1
      · simp at h2
        subst h2
        exact digitChar_isDigit _

lemma natChars_digits (n : Nat) : ∀ c ∈ natChars n, c.isDigit :=
  fun c hc => natCharsAux_digits (n + 1) n c hc

lemma isDigit_ne_dot {c : Char} (h : c.isDigit) : c ≠ '.' := by
  intro he
  rw [he] at h
  exact absurd h (by decide)

/-- Python's fixed-point format `f"{x:.2f}"`, modelled over rationals:
the value is rounded to cents and printed as an optional sign, the decimal
digits of the whole part, a point, and exactly two fractional digits. -/
def fmt2 (q : ℚ) : String :=
  let c : Int := round (q * 100)
  let n : Nat := c.natAbs
  String.mk ((if c < 0 then ['-'] else []) ++ natChars (n / 100)
    ++ '.' :: [digitChar (n / 10 % 10), digitChar (n % 10)])

/-- The Montant/Solde cell of a PDF payment line (app.py line 275):
`f"${v:.2f}" if payment.get(k) else ''` — the currency text when the value
is present and truthy (a nonzero number), the empty string when the key is
absent, holds the empty-string placeholder, or holds the falsy number 0. -/
def currencyCell (v : Option ℚ) : String :=
  match v with
  | some q => if q = 0 then "" else "$" ++ fmt2 q
  | none => ""

/-- The out-of-range payment default of the renderer (app.py line 272):
`{'date': '', 'amount': '', 'balance': ''}`. -/
def defaultPayment : Payment := ⟨"", none, none⟩

/-- One payment line of the PDF (app.py lines 271-276): sequence label,
date, amount cell and balance cell. -/
def paymentLine (ps : List Payment) (i : Nat) : List String :=
  let p := ps.getD i defaultPayment
  ["Paiement n° " ++ toString (i + 1) ++ ":", "Date:", p.date,
   "Montant:", currencyCell p.amount, "Solde:", currencyCell p.balance]

/-- The payment block of the PDF (app.py line 271): always 4 lines. -/
def payment_rows (ps : List Payment) : List (List String) :=
  (List.range 4).map (paymentLine ps)

/-- C3 counterexample: rendering a record whose single stored week holds
only one day code produces the data row `["2024-01-01", "P"]` — the
start date followed by one day code, not 7: `days[:7]` truncates but never
pads, so the claimed fixed row shape fails for short stored day lists. -/
theorem short_days_row_cx :
    attendance_table_data [(⟨"2024-01-01", ["P"]⟩ : Week)]
      = [["Semaine débutant le", "L", "M", "M", "J", "V", "S", "D"],
         ["2024-01-01", "P"],
         ["", "", "", "", "", "", "", ""],
         ["", "", "", "", "", "", "", ""],
         ["", "", "", "", "", "", "", ""]] ∧
    (["2024-01-01", "P"] : List String).length ≠ 8 := by
  exact ⟨rfl, by decide⟩

/-- C3 (amended): the attendance block is always one header row — the
week-start label plus the day-of-week abbreviations Monday..Sunday —
followed by exactly 4 data rows, and the payment block always has exactly
4 lines of 7 cells, regardless of how many weeks or payments are
populated; a missing week renders as an all-empty row of 8 cells.  A
present week's row, however, is the start date followed by the stored day
codes truncated to at most 7: it has the full 8 cells whenever the stored
day list has at least 7 entries, but a shorter stored list yields a
shorter row (no padding). -/
theorem renderer_grid_shape (att : List Week) (ps : List Payment) :
    (attendance_table_data att).length = 5 ∧
    (attendance_table_data att).head?
      = some ["Semaine débutant le", "L", "M", "M", "J", "V", "S", "D"] ∧
    (∀ i : Nat, att.length ≤ i →
      attendanceRow att i = "" :: List.replicate 7 "") ∧
    (∀ i : Nat, i < att.length →
      (attendanceRow att i).length
        = 1 + min (att.getD i ⟨"", []⟩).days.length 7) ∧
    (∀ i : Nat, i < att.length → 7 ≤ (att.getD i ⟨"", []⟩).days.length →
      (attendanceRow att i).length = 8) ∧
    (payment_rows ps).length = 4 ∧
    (payment_rows ps).all (fun row => row.length == 7) = true := by
  refine ⟨?_, rfl, ?_, ?_, ?_, ?_, ?_⟩
  · simp [attendance_table_data]
  · intro i hi
    unfold attendanceRow
    rw [List.getElem?_eq_none hi]
  · intro i hi
    unfold attendanceRow
    rw [List.getD_eq_getElem?_getD, List.getElem?_eq_getElem hi]
    simp [List.length_take]
    omega
  · intro i hi h7
    rw [List.getD_eq_getElem?_getD, List.getElem?_eq_getElem hi] at h7
    simp only [Option.getD_some] at h7
    unfold attendanceRow
    rw [List.getElem?_eq_getElem hi]
    simp [List.length_take]
    omega
  · simp [payment_rows]
  · simp [payment_rows, List.all_eq_true, paymentLine]

/-- C3 witness: the amended shape evaluated at a concrete record — one
stored week of 7 codes and one payment: a missing-week row is all empty,
the present full week's row has 8 cells. -/
theorem renderer_grid_shape_witness :
    attendanceRow [(⟨"2024-01-01", ["P", "P", "A", "P", "P", "", ""]⟩ : Week)] 2
        = "" :: List.replicate 7 "" ∧
    (attendanceRow [(⟨"2024-01-01", ["P", "P", "A", "P", "P", "", ""]⟩ : Week)]
        0).length = 8 := by
  have h := renderer_grid_shape
    [(⟨"2024-01-01", ["P", "P", "A", "P", "P", "", ""]⟩ : Week)] []
  exact ⟨h.2.2.1 2 (by decide), h.2.2.2.2.1 0 (by decide) (by decide)⟩

/-- C4 counterexample: a recorded payment whose amount and balance are the
number 0 renders exactly like the absent payment — the amount cell is the
empty string, not `"$0.00"` — because Python's truthiness test
`if payment.get('amount')` is false for 0; so an amount that is present is
not always formatted as currency, and "no payment recorded" is not
distinguishable from a recorded payment of $0.00. -/
theorem zero_amount_blank_cx :
    paymentLine [(⟨"", some 0, some 0⟩ : Payment)] 0 = paymentLine [] 0 ∧
    ([(⟨"", some 0, some 0⟩ : Payment)] : List Payment) ≠ [] ∧
    currencyCell (some 0) = "" ∧ currencyCell none = "" := by
  refine ⟨?_, by decide, ?_, rfl⟩
  · unfold paymentLine
    simp [List.getD, currencyCell, defaultPayment]
  · simp [currencyCell]

/-- C4 (amended): in a rendered payment line, a present nonzero amount or
balance is formatted as a dollar sign followed by digits, a decimal point
and exactly two fractional digits; an absent amount renders as the empty
string — but so does a present amount equal to 0, so a recorded $0.00 is
rendered identically to "no payment recorded" (the two are not
distinguishable in the document). -/
theorem currency_formatting (v : Option ℚ) :
    (v = none → currencyCell v = "") ∧
    (v = some 0 → currencyCell v = "") ∧
    (∀ q : ℚ, v = some q → q ≠ 0 →
      ∃ w : List Char, ∃ d1 d2 : Char,
        (currencyCell v).data = '$' :: (w ++ '.' :: [d1, d2]) ∧
        d1.isDigit ∧ d2.isDigit ∧ '.' ∉ w) := by
  refine ⟨?_, ?_, ?_⟩
  · intro h; subst h; rfl
  · intro h; subst h
    simp [currencyCell]
  · intro q hv hq
    subst hv
    simp only [currencyCell]
    rw [if_neg hq]
    unfold fmt2
    refine ⟨(if round (q * 100) < 0 then ['-'] else [])
        ++ natChars ((round (q * 100)).natAbs / 100),
      digitChar ((round (q * 100)).natAbs / 10 % 10),
      digitChar ((round (q * 100)).natAbs % 10), ?_, digitChar_isDigit _,
      digitChar_isDigit _, ?_⟩
    · simp [String.data_append, List.append_assoc]
    · intro hdot
      rcases List.mem_append.mp hdot with h1 | h2
      · split at h1
        · exact absurd h1 (by decide)
        · exact absurd h1 (by decide)
      · exact absurd rfl (isDigit_ne_dot (natChars_digits _ _ h2))

/-- C4 witness: the amended formatting property evaluated at the concrete
present nonzero amount 2. -/
theorem currency_formatting_witness :
    ∃ w : List Char, ∃ d1 d2 : Char,
      (currencyCell (some 2)).data = '$' :: (w ++ '.' :: [d1, d2]) ∧
      d1.isDigit ∧ d2.isDigit ∧ '.' ∉ w :=
  (currency_formatting (some 2)).2.2 2 rfl (by decide)

/-- The ordering contract of `SELECT * FROM forms ORDER BY created_date
DESC` (app.py line 103): the result is a permutation of the full scan that
is pairwise non-ascending on `created_date` (TEXT comparison, i.e.
lexicographic byte order on the ISO timestamps).  SQL fixes nothing beyond
this: rows with equal `created_date` may come back in any order. -/
def orderedByCreatedDesc (db out : List Row) : Prop :=
  db.Perm out ∧ out.Pairwise (fun a b => b.created_date ≤ a.created_date)

/-- Ordered insertion for the descending sort: the new row goes in front of
the first existing row whose key is not greater. -/
def insertDesc (r : Row) : List Row → List Row
  | [] => [r]
  | y :: ys =>
    if r.created_date < y.created_date then y :: insertDesc r ys
    else r :: y :: ys

/-- One admissible evaluation of the `ORDER BY created_date DESC` scan,
used to keep `get_all_forms` executable: an insertion sort over the rows
in rowid order. -/
def sortByCreatedDesc : List Row → List Row
  | [] => []
  | x :: xs => insertDesc x (sortByCreatedDesc xs)

/-- `get_all_forms` (app.py lines 99-125): the ordered full scan, decoded
row by row.  (The Python function returns a dict keyed by the primary-key
column, which preserves this row order.) -/
def get_all_forms (db : DB) : List Record :=
  (sortByCreatedDesc db).map rowToRecord

lemma insertDesc_perm (r : Row) (l : List Row) :
    (insertDesc r l).Perm (r :: l) := by
  induction l with
  | nil => exact .refl _
  | cons y ys ih =>
    rw [insertDesc]
    split
    · exact (ih.cons y).trans (List.Perm.swap r y ys)
    · exact .refl _

lemma sortByCreatedDesc_perm (l : List Row) :
    (sortByCreatedDesc l).Perm l := by
  induction l with
  | nil => exact .refl _
  | cons x xs ih => exact (insertDesc_perm x _).trans (ih.cons x)

lemma insertDesc_pairwise (r : Row) (l : List Row)
    (hl : l.Pairwise (fun a b => b.created_date ≤ a.created_date)) :
    (insertDesc r l).Pairwise (fun a b => b.created_date ≤ a.created_date) := by
  induction l with
  | nil => simp [insertDesc]
  | cons y ys ih =>
    rw [insertDesc]
    rcases List.pairwise_cons.mp hl with ⟨hy, hys⟩
    split
    · rename_i hlt
      refine List.pairwise_cons.mpr ⟨?_, ih hys⟩
      intro z hz
      rcases List.mem_cons.mp ((insertDesc_perm r ys).mem_iff.mp hz) with hz | hz
      · rw [hz]
        exact le_of_lt hlt
      · exact hy z hz
    · rename_i hge
      push_neg at hge
      refine List.pairwise_cons.mpr ⟨?_, hl⟩
      intro z hz
      rcases List.mem_cons.mp hz with hz | hz
      · rw [hz]; exact hge
      · exact le_trans (hy z hz) hge

lemma sortByCreatedDesc_pairwise (l : List Row) :
    (sortByCreatedDesc l).Pairwise
      (fun a b => b.created_date ≤ a.created_date) := by
  induction l with
  | nil => simp [sortByCreatedDesc]
  | cons x xs ih => exact insertDesc_pairwise x _ ih

/-- Two rows that differ only in their id, with identical `created_date`. -/
def rowA : Row :=
  { id := "a", bureau := "", enfant := "", parent := "", rsge := "",
    date_fin := "", attendance := none, payments := none,
    parent_signature := "", rsge_signature := "",
    created_date := "2024-01-01T00:00:00", status := "signed",
    parent_signed := 1, parent_signed_date := "" }

/-- Second row with the same `created_date` as `rowA`. -/
def rowB : Row := { rowA with id := "b" }

/-- C6 counterexample: for a table holding two rows with equal
`created_date`, both relative orders satisfy everything the query
`ORDER BY created_date DESC` requires, and the two outputs differ — so the
code does not determine a tie order (no `id` tie-break is in the query),
and the claimed stable, deterministic insertion-id-ascending tie-break is
not guaranteed by the code. -/
theorem order_ties_nondeterministic_cx :
    orderedByCreatedDesc [rowA, rowB] [rowA, rowB] ∧
    orderedByCreatedDesc [rowA, rowB] [rowB, rowA] ∧
    ([rowA, rowB] : List Row) ≠ [rowB, rowA] := by
  have hBA : rowB.created_date ≤ rowA.created_date := le_of_eq rfl
  have hAB : rowA.created_date ≤ rowB.created_date := le_of_eq rfl
  refine ⟨⟨.refl _, ?_⟩, ⟨.swap rowB rowA [], ?_⟩, by decide⟩
  · exact List.pairwise_cons.mpr
      ⟨fun z hz => by rw [List.mem_singleton.mp hz]; exact hBA,
       List.pairwise_singleton _ _⟩
  · exact List.pairwise_cons.mpr
      ⟨fun z hz => by rw [List.mem_singleton.mp hz]; exact hAB,
       List.pairwise_singleton _ _⟩

/-- C6 (amended): `get_all_forms` returns all records of a full scan,
ordered by `created_date` descending (the executable model realizes the
scan-and-sort as a sort over the rows in rowid order, which satisfies the
query's ordering contract); the relative order of records with equal
timestamps is left unspecified by the code — no tie-break on the insertion
id is implemented. -/
theorem get_all_forms_ordered (db : DB) :
    orderedByCreatedDesc db (sortByCreatedDesc db) ∧
    (get_all_forms db).Perm (db.map rowToRecord) := by
  refine ⟨⟨(sortByCreatedDesc_perm db).symm, sortByCreatedDesc_pairwise db⟩, ?_⟩
  exact (sortByCreatedDesc_perm db).map rowToRecord

end Garderie
